import Mathlib

/-
Verification of the YouTube content-pipeline app (App.tsx, geminiService.ts,
types.ts).  The development shallowly embeds the service layer and the
workflow orchestrator.  External generative-AI calls are modelled as oracle
inputs: each call either rejects (an `Except.error`) or resolves with the raw
response payload the code then processes.  Prompts sent to the external
service are write-only from the program's point of view and do not influence
any locally observable state, so service functions take only the response
oracle; the orchestrator's per-scene image oracle additionally records the
scene index and the prompt that the code passes.
-/

/-- JSON values, as produced by JavaScript JSON.parse.  Numbers carry the
exact rational value of the decimal literal (integer part, optional
fraction, optional exponent); no claim compares parsed numeric values, so
the float rounding JavaScript applies on top of that value is not
modelled. -/
inductive Json where
  | null
  | bool (b : Bool)
  | num (q : Rat)
  | str (s : String)
  | arr (elems : List Json)
  | obj (fields : List (String × Json))

/-- Left brace character, kept out of literals. -/
def lbrace : Char := Char.ofNat 123

/-- Right brace character, kept out of literals. -/
def rbrace : Char := Char.ofNat 125

/-- Drop leading JSON whitespace. -/
def skipWs : List Char → List Char
  | [] => []
  | c :: cs => if c = ' ' ∨ c = '\n' ∨ c = '\t' ∨ c = '\r' then skipWs cs else c :: cs

/-- Consume an expected literal character sequence. -/
def expectChars : List Char → List Char → Option (List Char)
  | [], cs => some cs
  | _ :: _, [] => none
  | e :: es, c :: cs => if c = e then expectChars es cs else none

/-- Test for a hexadecimal digit, as allowed after a \u escape. -/
def isHexDig (c : Char) : Bool :=
  c.isDigit || ('a' ≤ c && c ≤ 'f') || ('A' ≤ c && c ≤ 'F')

/-- Value of a hexadecimal digit. -/
def hexVal (c : Char) : Nat :=
  if 97 ≤ c.toNat then c.toNat - 87
  else if 65 ≤ c.toNat then c.toNat - 55
  else c.toNat - 48

/-- Parse the remainder of a JSON string literal (opening quote consumed).
JSON.parse's string grammar: the escapes are exactly \" \\ \/ \b \f \n \r
\t and \u followed by four hex digits, any other escape throws, and an
unescaped control character (code point below 32) throws.  A \uXXXX escape
decodes to the character with that code unit; code units outside Char's
scalar range (lone surrogates) go through Char.ofNat's fallback, which can
change the decoded character but never acceptance. -/
def parseStrChars : List Char → String → Option (String × List Char)
  | [], _ => none
  | c :: cs, acc =>
      if c = '"' then some (acc, cs)
      else if c = '\\' then
        match cs with
        | [] => none
        | e :: cs2 =>
            if e = '"' ∨ e = '\\' ∨ e = '/' then parseStrChars cs2 (acc.push e)
            else if e = 'b' then parseStrChars cs2 (acc.push (Char.ofNat 8))
            else if e = 'f' then parseStrChars cs2 (acc.push (Char.ofNat 12))
            else if e = 'n' then parseStrChars cs2 (acc.push '\n')
            else if e = 'r' then parseStrChars cs2 (acc.push '\r')
            else if e = 't' then parseStrChars cs2 (acc.push '\t')
            else if e = 'u' then
              match cs2 with
              | h1 :: h2 :: h3 :: h4 :: cs3 =>
                  if isHexDig h1 && isHexDig h2 && isHexDig h3 && isHexDig h4 then
                    parseStrChars cs3 (acc.push (Char.ofNat
                      (((hexVal h1 * 16 + hexVal h2) * 16 + hexVal h3) * 16 + hexVal h4)))
                  else none
              | _ => none
            else none
      else if c.toNat < 32 then none
      else parseStrChars cs (acc.push c)

/-- Split off a leading run of decimal digits. -/
def takeDigits : List Char → List Char × List Char
  | [] => ([], [])
  | c :: cs =>
      if c.isDigit then
        let r := takeDigits cs
        (c :: r.1, r.2)
      else ([], c :: cs)

/-- Decimal value of a digit run. -/
def digitsToNat (ds : List Char) : Nat :=
  ds.foldl (fun a c => a * 10 + (c.toNat - 48)) 0

/-- Integer part of a JSON number: a single 0, or a nonzero digit followed
by digits — JSON.parse rejects leading zeros, so after an initial 0 any
further digit is left unconsumed and trips the surrounding delimiter
check. -/
def parseIntPart : List Char → Option (Nat × List Char)
  | [] => none
  | c :: rest =>
      if c = '0' then some (0, rest)
      else if c.isDigit then
        let dr := takeDigits rest
        some (digitsToNat (c :: dr.1), dr.2)
      else none

/-- Optional fraction of a JSON number: a dot followed by one or more
digits; a malformed fraction is left unconsumed (value, digit count,
rest). -/
def parseFrac (cs : List Char) : Nat × Nat × List Char :=
  match cs with
  | c :: rest =>
      if c = '.' then
        let dr := takeDigits rest
        if dr.1.isEmpty then (0, 0, c :: rest) else (digitsToNat dr.1, dr.1.length, dr.2)
      else (0, 0, c :: rest)
  | [] => (0, 0, [])

/-- Optional exponent of a JSON number: e or E, an optional sign, one or
more digits; a malformed exponent is left unconsumed. -/
def parseExp (cs : List Char) : Int × List Char :=
  match cs with
  | c :: rest =>
      if c = 'e' ∨ c = 'E' then
        match rest with
        | s :: rest2 =>
            if s = '+' then
              let dr := takeDigits rest2
              if dr.1.isEmpty then (0, c :: rest) else ((digitsToNat dr.1 : Int), dr.2)
            else if s = '-' then
              let dr := takeDigits rest2
              if dr.1.isEmpty then (0, c :: rest) else (-(digitsToNat dr.1 : Int), dr.2)
            else
              let dr := takeDigits (s :: rest2)
              if dr.1.isEmpty then (0, c :: rest) else ((digitsToNat dr.1 : Int), dr.2)
        | [] => (0, c :: rest)
      else (0, c :: rest)
  | [] => (0, [])

/-- Exact rational value of a parsed decimal literal
sign * (intPart + frac / 10 ^ fracDigits) * 10 ^ exponent. -/
def numValue (neg : Bool) (ip fracV fracD : Nat) (ex : Int) : Rat :=
  let base : Rat := (ip : Rat) + mkRat (fracV : Int) (10 ^ fracD)
  let scaled : Rat :=
    if 0 ≤ ex then base * (10 : Rat) ^ ex.toNat
    else base / (10 : Rat) ^ (-ex).toNat
  if neg then -scaled else scaled

/-- Parse a JSON number: optional minus, integer part, optional fraction,
optional exponent.  Anything a well-formed number cannot absorb stays
unconsumed, and the caller's delimiter checks then reject exactly the
documents JSON.parse rejects. -/
def parseNumber : List Char → Option (Rat × List Char)
  | [] => none
  | c :: rest =>
      if c = '-' then
        match parseIntPart rest with
        | none => none
        | some (ip, r1) =>
            let f := parseFrac r1
            let e := parseExp f.2.2
            some (numValue true ip f.1 f.2.1 e.1, e.2)
      else
        match parseIntPart (c :: rest) with
        | none => none
        | some (ip, r1) =>
            let f := parseFrac r1
            let e := parseExp f.2.2
            some (numValue false ip f.1 f.2.1 e.1, e.2)

mutual

/-- Parse one JSON value; the fuel bounds nesting depth. -/
def parseValue : Nat → List Char → Option (Json × List Char)
  | 0, _ => none
  | fuel + 1, cs =>
      match skipWs cs with
      | [] => none
      | c :: rest =>
          if c = '"' then
            (parseStrChars rest "").map (fun p => (Json.str p.1, p.2))
          else if c = '[' then
            match skipWs rest with
            | [] => none
            | c2 :: rest2 =>
                if c2 = ']' then some (Json.arr [], rest2)
                else (parseElemsRest fuel (c2 :: rest2) []).map (fun p => (Json.arr p.1, p.2))
          else if c = lbrace then
            match skipWs rest with
            | [] => none
            | c2 :: rest2 =>
                if c2 = rbrace then some (Json.obj [], rest2)
                else (parseFieldsRest fuel (c2 :: rest2) []).map (fun p => (Json.obj p.1, p.2))
          else if c = 'n' then
            (expectChars ['u', 'l', 'l'] rest).map (fun r => (Json.null, r))
          else if c = 't' then
            (expectChars ['r', 'u', 'e'] rest).map (fun r => (Json.bool true, r))
          else if c = 'f' then
            (expectChars ['a', 'l', 's', 'e'] rest).map (fun r => (Json.bool false, r))
          else if c = '-' ∨ c.isDigit then
            (parseNumber (c :: rest)).map (fun p => (Json.num p.1, p.2))
          else none

/-- Parse the elements of a nonempty JSON array after the opening bracket. -/
def parseElemsRest : Nat → List Char → List Json → Option (List Json × List Char)
  | 0, _, _ => none
  | fuel + 1, cs, acc =>
      match parseValue fuel cs with
      | none => none
      | some (j, rest) =>
          match skipWs rest with
          | [] => none
          | c :: rest2 =>
              if c = ',' then parseElemsRest fuel rest2 (acc ++ [j])
              else if c = ']' then some (acc ++ [j], rest2)
              else none

/-- Parse the fields of a nonempty JSON object after the opening brace. -/
def parseFieldsRest : Nat → List Char → List (String × Json) →
    Option (List (String × Json) × List Char)
  | 0, _, _ => none
  | fuel + 1, cs, acc =>
      match skipWs cs with
      | [] => none
      | c :: rest =>
          if c = '"' then
            match parseStrChars rest "" with
            | none => none
            | some (key, rest2) =>
                match skipWs rest2 with
                | [] => none
                | c2 :: rest3 =>
                    if c2 = ':' then
                      match parseValue fuel rest3 with
                      | none => none
                      | some (v, rest4) =>
                          match skipWs rest4 with
                          | [] => none
                          | c3 :: rest5 =>
                              if c3 = ',' then parseFieldsRest fuel rest5 (acc ++ [(key, v)])
                              else if c3 = rbrace then some (acc ++ [(key, v)], rest5)
                              else none
                    else none
          else none

end

/-- Model of JavaScript JSON.parse: `some` on a syntactically valid document,
`none` where JSON.parse would throw a SyntaxError.  The grammar follows
JSON.parse: the four whitespace characters, null/true/false, strings with
the exact JSON escape set and a ban on raw control characters, numbers with
optional sign, no leading zeros, optional fraction and exponent, arrays and
objects; trailing input is rejected. -/
def parseJson (s : String) : Option Json :=
  match parseValue (2 * s.data.length + 2) s.data with
  | some (j, rest) => if skipWs rest = [] then some j else none
  | none => none

/-- Failure of an external call, as observed by the code: either the promise
rejected (network/API error) or JSON.parse threw on the response text. -/
inductive GenError where
  | rejected
  | parseErr
deriving DecidableEq

/-- JavaScript `x || d` on an optional string: the default replaces both a
missing value and the (falsy) empty string. -/
def strOr : Option String → String → String
  | none, d => d
  | some s, d => if s = "" then d else s

/-- Grounding chunk's `web` object (geminiService.ts lines 17-20). -/
structure WebInfo where
  title : Option String
  uri : Option String
deriving DecidableEq

/-- One grounding chunk of a research response. -/
structure GroundingChunk where
  web : Option WebInfo
deriving DecidableEq

/-- Raw research response: `response.text` and
`candidates[0]?.groundingMetadata?.groundingChunks`. -/
structure ResearchResponse where
  text : Option String
  groundingChunks : Option (List GroundingChunk)
deriving DecidableEq

/-- Source entry of ResearchData (types.ts line 19). -/
structure SourceRef where
  title : String
  uri : String
deriving DecidableEq

/-- ResearchData (types.ts lines 17-20). -/
structure ResearchData where
  report : String
  sources : List SourceRef
deriving DecidableEq

/-- Mapping of one grounding chunk to a source entry (geminiService.ts lines
17-20): `title: chunk.web?.title || '출처', uri: chunk.web?.uri || '#'`. -/
def mkSource (chunk : GroundingChunk) : SourceRef :=
  { title := strOr (chunk.web.bind WebInfo.title) "출처"
  , uri := strOr (chunk.web.bind WebInfo.uri) "#" }

/-- performResearch (geminiService.ts lines 7-26).  The oracle argument is
the outcome of the `ai.models.generateContent` call.  On resolution the code
returns `{ report: response.text || '', sources }` and never throws. -/
def performResearch (resp : Except GenError ResearchResponse) :
    Except GenError ResearchData :=
  match resp with
  | Except.error e => Except.error e
  | Except.ok r =>
      Except.ok { report := strOr r.text ""
                , sources := (r.groundingChunks.getD []).map mkSource }

/-- generateScript (geminiService.ts lines 28-79).  The oracle argument is
the outcome of the structured-generation call, carrying `response.text`.
The code runs `JSON.parse(response.text || '{}')` and returns the parsed
value without any shape validation. -/
def generateScript (resp : Except GenError (Option String)) : Except GenError Json :=
  match resp with
  | Except.error e => Except.error e
  | Except.ok t =>
      match parseJson (strOr t "\x7b\x7d") with
      | some j => Except.ok j
      | none => Except.error GenError.parseErr

/-- generateMetadata (geminiService.ts lines 103-132): identical
`JSON.parse(response.text || '{}')` post-processing. -/
def generateMetadata (resp : Except GenError (Option String)) : Except GenError Json :=
  match resp with
  | Except.error e => Except.error e
  | Except.ok t =>
      match parseJson (strOr t "\x7b\x7d") with
      | some j => Except.ok j
      | none => Except.error GenError.parseErr

/-- One part of an image response's `candidates[0]?.content?.parts`, carrying
the optional inline base64 payload. -/
structure InlinePart where
  inlineData : Option String
deriving DecidableEq

/-- Image-URL extraction loop of generateImage (geminiService.ts lines
93-100): first part with inline data wins; empty string when none has any. -/
def extractImageUrl : List InlinePart → String
  | [] => ""
  | p :: ps =>
      match p.inlineData with
      | some d => "data:image/png;base64," ++ d
      | none => extractImageUrl ps

/-- generateImage (geminiService.ts lines 81-101).  The oracle argument is
the outcome of the image-model call; the prompt augmentation is write-only
towards the external service. -/
def generateImage (resp : Except GenError (List InlinePart)) : Except GenError String :=
  Except.map extractImageUrl resp

/-- Object-field lookup on a parsed JSON value, `none` on non-objects and
missing keys (JavaScript property access yielding undefined). -/
def jsonField (j : Json) (key : String) : Option Json :=
  match j with
  | Json.obj fields => fields.lookup key
  | _ => none

/-- ThumbnailData (types.ts lines 44-51).  `copySuggestions` is kept as the
raw parsed JSON value because the code copies `textData.copySuggestions`
without validating its shape. -/
structure ThumbnailData where
  pureImageUrl : Option String := none
  mockupImageUrl : Option String := none
  copySuggestions : Option Json := none

/-- Oracle inputs of generateThumbnailContent: the copy-suggestion call's
text outcome and the image call's outcome. -/
structure ThumbEnv where
  textCall : Except GenError (Option String)
  imageCall : Except GenError (List InlinePart)

/-- generateThumbnailContent (geminiService.ts lines 134-173): first the
copy-suggestion call, whose text is parsed with
`JSON.parse(textResponse.text || '{}')`; only then the image call.  The
returned pair's second component records whether the image call was ever
attempted.  The result object sets `pureImageUrl` and `copySuggestions` and
never mentions `mockupImageUrl`. -/
def generateThumbnailContent (tenv : ThumbEnv) : Except GenError ThumbnailData × Bool :=
  match tenv.textCall with
  | Except.error e => (Except.error e, false)
  | Except.ok t =>
      match parseJson (strOr t "\x7b\x7d") with
      | none => (Except.error GenError.parseErr, false)
      | some textData =>
          match generateImage tenv.imageCall with
          | Except.error e => (Except.error e, true)
          | Except.ok url =>
              (Except.ok { pureImageUrl := some url
                         , mockupImageUrl := none
                         , copySuggestions := jsonField textData "copySuggestions" }, true)

/-- AppStep (types.ts lines 2-9). -/
inductive AppStep where
  | input
  | research
  | script
  | images
  | metadata
  | thumbnail
deriving DecidableEq

/-- ScriptLength (types.ts lines 11-15). -/
inductive ScriptLength where
  | short
  | medium
  | long
deriving DecidableEq

/-- Target character count per length tier (geminiService.ts line 30). -/
def targetChars : ScriptLength → Nat
  | ScriptLength.short => 4000
  | ScriptLength.medium => 8000
  | ScriptLength.long => 12000

/-- ParagraphItem (types.ts lines 22-28).  The two optional fields start
undefined and are written by the image loop and the retry path. -/
structure ParagraphItem where
  id : Int
  content : String
  imagePrompt : String
  imageUrl : Option String := none
  isGenerating : Option Bool := none
deriving DecidableEq

/-- ScriptData (types.ts lines 30-34). -/
structure ScriptData where
  rawScript : String
  ttsScript : String
  paragraphs : List ParagraphItem
deriving DecidableEq

/-- MetadataResults (types.ts lines 36-42). -/
structure MetadataResults where
  youtubeDescription : String
  summary4Lines : String
  hashtags : List String
  seoKeywords : List String
  pinnedComment : String
deriving DecidableEq

/-- AppState (types.ts lines 53-62), the single workflow state record. -/
structure AppState where
  currentStep : AppStep
  topic : String
  length : ScriptLength
  research : Option ResearchData := none
  script : Option ScriptData := none
  metadata : Option MetadataResults := none
  thumbnail : Option ThumbnailData := none
  isProcessing : Bool := false

/-- Observable events of a run: a stage value published to the workflow
state, and each external call the orchestrator issues. -/
inductive Event where
  | stage (s : AppStep)
  | callResearch
  | callScript
  | callMetadata
  | callThumbnail
  | callImage (i : Nat)
deriving DecidableEq

/-- Injected generation-client interface for the orchestrator (the spec's
five operations, typed as App.tsx consumes them).  `image` is indexed by the
scene position and receives the prompt the code passes; successive calls may
resolve or reject independently. -/
structure Env where
  research : Except GenError ResearchData
  script : Except GenError ScriptData
  metadata : Except GenError MetadataResults
  thumbnail : Except GenError ThumbnailData
  image : Nat → String → Except GenError String

/-- In-place update of a list element, the functional image of JavaScript
`array[i].field = v`; out-of-range indices leave the list unchanged. -/
def modifyIdx {α : Type} (f : α → α) : Nat → List α → List α
  | _, [] => []
  | 0, a :: l => f a :: l
  | n + 1, a :: l => a :: modifyIdx f n l

/-- Marking of scene `i`'s `isGenerating` flag (App.tsx lines 73 and 83). -/
def markGenerating (b : Bool) (i : Nat) (ps : List ParagraphItem) : List ParagraphItem :=
  modifyIdx (fun p => { p with isGenerating := some b }) i ps

/-- The guarded image call of one loop iteration (App.tsx lines 76-81): the
client is invoked with scene `i`'s `imagePrompt`; on success `imageUrl` is
overwritten, on failure the error is only logged and the list is unchanged. -/
def applyImageResult (env : Env) (i : Nat) (ps1 : List ParagraphItem) : List ParagraphItem :=
  match env.image i ((ps1[i]?.map ParagraphItem.imagePrompt).getD "") with
  | Except.ok url => modifyIdx (fun p => { p with imageUrl := some url }) i ps1
  | Except.error _ => ps1

/-- One iteration of the image sub-loop body (App.tsx lines 72-85): mark
`isGenerating`, call the image client, write `imageUrl` only on success,
clear `isGenerating`. -/
def imagesStep (env : Env) (i : Nat) (ps : List ParagraphItem) : List ParagraphItem :=
  markGenerating false i (applyImageResult env i (markGenerating true i ps))

/-- The image sub-loop (App.tsx lines 71-85), iterating scene indices in
order; the fuel is the number of remaining indices. -/
def imagesLoop (env : Env) : Nat → Nat → List ParagraphItem → List ParagraphItem × List Event
  | _, 0, ps => (ps, [])
  | i, k + 1, ps =>
      let ps3 := imagesStep env i ps
      let r := imagesLoop env (i + 1) k ps3
      (r.1, Event.callImage i :: r.2)

/-- Net effect of one image-loop iteration on the scene it processes. -/
def processScene (env : Env) (i : Nat) (p : ParagraphItem) : ParagraphItem :=
  let p1 := { p with isGenerating := some true }
  let p2 :=
    match env.image i p.imagePrompt with
    | Except.ok url => { p1 with imageUrl := some url }
    | Except.error _ => p1
  { p2 with isGenerating := some false }

/-- The prompt the loop passes for scene `j`: that scene's `imagePrompt`. -/
def promptAt (ps : List ParagraphItem) (j : Nat) : String :=
  (ps[j]?.map ParagraphItem.imagePrompt).getD ""

/-- startWorkflow (App.tsx lines 45-93): guard on the empty topic, then the
four call-and-commit stages research, script, metadata, thumbnail — each
stage value published before its call, any stage rejection caught by the
outer handler — then the per-scene image loop; `isProcessing` is cleared in
the `finally` on every path past the guard.  Returns the final state and the
run's event trace. -/
def startWorkflow (env : Env) (s : AppState) : AppState × List Event :=
  if s.topic = "" then (s, [])
  else
    let s1 := { s with isProcessing := true, currentStep := AppStep.research }
    let ev1 : List Event := [Event.stage AppStep.research, Event.callResearch]
    match env.research with
    | Except.error _ => ({ s1 with isProcessing := false }, ev1)
    | Except.ok research =>
        let s2 := { s1 with research := some research, currentStep := AppStep.script }
        let ev2 := ev1 ++ [Event.stage AppStep.script, Event.callScript]
        match env.script with
        | Except.error _ => ({ s2 with isProcessing := false }, ev2)
        | Except.ok scriptData =>
            let s3 := { s2 with script := some scriptData, currentStep := AppStep.metadata }
            let ev3 := ev2 ++ [Event.stage AppStep.metadata, Event.callMetadata]
            match env.metadata with
            | Except.error _ => ({ s3 with isProcessing := false }, ev3)
            | Except.ok metadata =>
                let s4 := { s3 with metadata := some metadata, currentStep := AppStep.thumbnail }
                let ev4 := ev3 ++ [Event.stage AppStep.thumbnail, Event.callThumbnail]
                match env.thumbnail with
                | Except.error _ => ({ s4 with isProcessing := false }, ev4)
                | Except.ok thumbnail =>
                    let s5 := { s4 with thumbnail := some thumbnail
                                      , currentStep := AppStep.images }
                    let ev5 := ev4 ++ [Event.stage AppStep.images]
                    let r := imagesLoop env 0 scriptData.paragraphs.length scriptData.paragraphs
                    ({ s5 with script := some { scriptData with paragraphs := r.1 }
                             , isProcessing := false }, ev5 ++ r.2)

/-- retryImage (App.tsx lines 115-130): single-scene regeneration.  The
oracle argument is the outcome of the image call; `imageUrl` is overwritten
only in the success branch, `isGenerating` is cleared on both branches. -/
def retryImage (imgResult : Except GenError String) (s : AppState) (index : Nat) : AppState :=
  match s.script with
  | none => s
  | some sd =>
      let ps1 := modifyIdx (fun p => { p with isGenerating := some true }) index sd.paragraphs
      let ps2 :=
        match imgResult with
        | Except.ok url => modifyIdx (fun p => { p with imageUrl := some url }) index ps1
        | Except.error _ => ps1
      let ps3 := modifyIdx (fun p => { p with isGenerating := some false }) index ps2
      { s with script := some { sd with paragraphs := ps3 } }

/-- Scene `i`'s `imageUrl` in a workflow state (`none` when no script or no
such scene). -/
def imageUrlAt (s : AppState) (i : Nat) : Option (Option String) :=
  s.script.bind (fun sd => sd.paragraphs[i]?.map ParagraphItem.imageUrl)

/-- Scene `i`'s `isGenerating` flag in a workflow state. -/
def isGenAt (s : AppState) (i : Nat) : Option (Option Bool) :=
  s.script.bind (fun sd => sd.paragraphs[i]?.map ParagraphItem.isGenerating)

/-- The sequence of `currentStage` values published during a run. -/
def stageTrace (evs : List Event) : List AppStep :=
  evs.filterMap (fun e =>
    match e with
    | Event.stage st => some st
    | _ => none)

/-- The scene indices of the image calls issued during a run, in order. -/
def imageCalls (evs : List Event) : List Nat :=
  evs.filterMap (fun e =>
    match e with
    | Event.callImage i => some i
    | _ => none)

/-- Position of a stage in the order the orchestrator actually executes
(App.tsx lines 47-70). -/
def execPos : AppStep → Nat
  | AppStep.input => 0
  | AppStep.research => 1
  | AppStep.script => 2
  | AppStep.metadata => 3
  | AppStep.thumbnail => 4
  | AppStep.images => 5

/-- Position of a stage in the navigation order of the step bar (App.tsx
lines 134-141), the order the claim C4 quotes. -/
def navPos : AppStep → Nat
  | AppStep.input => 0
  | AppStep.research => 1
  | AppStep.script => 2
  | AppStep.images => 3
  | AppStep.metadata => 4
  | AppStep.thumbnail => 5


theorem length_modifyIdx {α : Type} (f : α → α) :
    ∀ (i : Nat) (l : List α), (modifyIdx f i l).length = l.length := by
  intro i l
  induction l generalizing i with
  | nil => cases i <;> rfl
  | cons a l ih =>
      cases i with
      | zero => rfl
      | succ n => simp [modifyIdx, ih]

theorem getElem?_modifyIdx_self {α : Type} (f : α → α) :
    ∀ (i : Nat) (l : List α), (modifyIdx f i l)[i]? = l[i]?.map f := by
  intro i l
  induction l generalizing i with
  | nil => cases i <;> rfl
  | cons a l ih =>
      cases i with
      | zero => simp [modifyIdx]
      | succ n => simpa [modifyIdx] using ih n

theorem getElem?_modifyIdx_ne {α : Type} (f : α → α) :
    ∀ (i j : Nat) (l : List α), j ≠ i → (modifyIdx f i l)[j]? = l[j]? := by
  intro i j l
  induction l generalizing i j with
  | nil => intro _; cases i <;> rfl
  | cons a l ih =>
      intro hne
      cases i with
      | zero =>
          cases j with
          | zero => exact absurd rfl hne
          | succ m => simp [modifyIdx]
      | succ n =>
          cases j with
          | zero => simp [modifyIdx]
          | succ m => simpa [modifyIdx] using ih n m (fun h => hne (by omega))

theorem length_markGenerating (b : Bool) (i : Nat) (ps : List ParagraphItem) :
    (markGenerating b i ps).length = ps.length := length_modifyIdx _ _ _

theorem length_applyImageResult (env : Env) (i : Nat) (ps : List ParagraphItem) :
    (applyImageResult env i ps).length = ps.length := by
  unfold applyImageResult
  split <;> simp [length_modifyIdx]

theorem length_imagesStep (env : Env) (i : Nat) (ps : List ParagraphItem) :
    (imagesStep env i ps).length = ps.length := by
  unfold imagesStep
  rw [length_markGenerating, length_applyImageResult, length_markGenerating]

theorem getElem?_imagesStep_ne (env : Env) (i j : Nat) (ps : List ParagraphItem)
    (hne : j ≠ i) : (imagesStep env i ps)[j]? = ps[j]? := by
  unfold imagesStep markGenerating applyImageResult
  split <;> simp [getElem?_modifyIdx_ne _ _ _ _ hne]

theorem getElem?_imagesStep_self (env : Env) (i : Nat) (ps : List ParagraphItem) :
    (imagesStep env i ps)[i]? = ps[i]?.map (processScene env i) := by
  have hpr : (((markGenerating true i ps)[i]?).map ParagraphItem.imagePrompt).getD "" =
      ((ps[i]?).map ParagraphItem.imagePrompt).getD "" := by
    unfold markGenerating
    rw [getElem?_modifyIdx_self]
    cases ps[i]? <;> rfl
  unfold imagesStep applyImageResult
  rw [hpr]
  cases hp : ps[i]? with
  | none =>
      split <;> simp [markGenerating, getElem?_modifyIdx_self, hp]
  | some p =>
      simp only [Option.map_some', Option.getD_some]
      cases h : env.image i p.imagePrompt with
      | ok url => simp [markGenerating, getElem?_modifyIdx_self, hp, processScene, h]
      | error e => simp [markGenerating, getElem?_modifyIdx_self, hp, processScene, h]

theorem length_imagesLoop (env : Env) :
    ∀ (k i : Nat) (ps : List ParagraphItem), ((imagesLoop env i k ps).1).length = ps.length := by
  intro k
  induction k with
  | zero => intro i ps; rfl
  | succ k ih =>
      intro i ps
      show ((imagesLoop env (i + 1) k (imagesStep env i ps)).1).length = ps.length
      rw [ih, length_imagesStep]

theorem snd_imagesLoop (env : Env) :
    ∀ (k i : Nat) (ps : List ParagraphItem),
      (imagesLoop env i k ps).2 = (List.range' i k).map Event.callImage := by
  intro k
  induction k with
  | zero => intro i ps; rfl
  | succ k ih =>
      intro i ps
      show Event.callImage i :: (imagesLoop env (i + 1) k (imagesStep env i ps)).2 =
        (List.range' i (k + 1)).map Event.callImage
      rw [ih, List.range'_succ]
      rfl

theorem getElem?_imagesLoop_lt (env : Env) :
    ∀ (k i j : Nat) (ps : List ParagraphItem), j < i →
      (imagesLoop env i k ps).1[j]? = ps[j]? := by
  intro k
  induction k with
  | zero => intro i j ps _; rfl
  | succ k ih =>
      intro i j ps hj
      show (imagesLoop env (i + 1) k (imagesStep env i ps)).1[j]? = ps[j]?
      rw [ih (i + 1) j _ (by omega), getElem?_imagesStep_ne env i j ps (by omega)]

theorem getElem?_imagesLoop_proc (env : Env) :
    ∀ (k i j : Nat) (ps : List ParagraphItem), i ≤ j → j < i + k →
      (imagesLoop env i k ps).1[j]? = ps[j]?.map (processScene env j) := by
  intro k
  induction k with
  | zero => intro i j ps h1 h2; omega
  | succ k ih =>
      intro i j ps h1 h2
      show (imagesLoop env (i + 1) k (imagesStep env i ps)).1[j]? =
        ps[j]?.map (processScene env j)
      rcases Nat.eq_or_lt_of_le h1 with heq | hlt
      · subst heq
        rw [getElem?_imagesLoop_lt env k (i + 1) i _ (by omega), getElem?_imagesStep_self]
      · rw [ih (i + 1) j _ (by omega) (by omega), getElem?_imagesStep_ne env i j ps (by omega)]

theorem startWorkflow_researchFail (env : Env) (s : AppState) (e : GenError)
    (ht : ¬ s.topic = "") (hr : env.research = Except.error e) :
    startWorkflow env s =
      ({ s with currentStep := AppStep.research, isProcessing := false },
       [Event.stage AppStep.research, Event.callResearch]) := by
  unfold startWorkflow
  rw [if_neg ht, hr]

theorem startWorkflow_scriptFail (env : Env) (s : AppState) (r : ResearchData) (e : GenError)
    (ht : ¬ s.topic = "") (hr : env.research = Except.ok r)
    (hs : env.script = Except.error e) :
    startWorkflow env s =
      ({ s with currentStep := AppStep.script, research := some r, isProcessing := false },
       [Event.stage AppStep.research, Event.callResearch,
        Event.stage AppStep.script, Event.callScript]) := by
  unfold startWorkflow
  rw [if_neg ht, hr, hs]
  rfl

theorem startWorkflow_metadataFail (env : Env) (s : AppState) (r : ResearchData)
    (sd : ScriptData) (e : GenError)
    (ht : ¬ s.topic = "") (hr : env.research = Except.ok r)
    (hs : env.script = Except.ok sd) (hm : env.metadata = Except.error e) :
    startWorkflow env s =
      ({ s with currentStep := AppStep.metadata, research := some r, script := some sd,
                isProcessing := false },
       [Event.stage AppStep.research, Event.callResearch,
        Event.stage AppStep.script, Event.callScript,
        Event.stage AppStep.metadata, Event.callMetadata]) := by
  unfold startWorkflow
  rw [if_neg ht, hr, hs, hm]
  rfl

theorem startWorkflow_thumbnailFail (env : Env) (s : AppState) (r : ResearchData)
    (sd : ScriptData) (m : MetadataResults) (e : GenError)
    (ht : ¬ s.topic = "") (hr : env.research = Except.ok r)
    (hs : env.script = Except.ok sd) (hm : env.metadata = Except.ok m)
    (hth : env.thumbnail = Except.error e) :
    startWorkflow env s =
      ({ s with currentStep := AppStep.thumbnail, research := some r, script := some sd,
                metadata := some m, isProcessing := false },
       [Event.stage AppStep.research, Event.callResearch,
        Event.stage AppStep.script, Event.callScript,
        Event.stage AppStep.metadata, Event.callMetadata,
        Event.stage AppStep.thumbnail, Event.callThumbnail]) := by
  unfold startWorkflow
  rw [if_neg ht, hr, hs, hm, hth]
  rfl

theorem startWorkflow_success (env : Env) (s : AppState) (r : ResearchData)
    (sd : ScriptData) (m : MetadataResults) (t : ThumbnailData)
    (ht : ¬ s.topic = "") (hr : env.research = Except.ok r)
    (hs : env.script = Except.ok sd) (hm : env.metadata = Except.ok m)
    (hth : env.thumbnail = Except.ok t) :
    startWorkflow env s =
      ({ s with currentStep := AppStep.images, research := some r,
                script := some { sd with
                  paragraphs := (imagesLoop env 0 sd.paragraphs.length sd.paragraphs).1 },
                metadata := some m, thumbnail := some t, isProcessing := false },
       [Event.stage AppStep.research, Event.callResearch,
        Event.stage AppStep.script, Event.callScript,
        Event.stage AppStep.metadata, Event.callMetadata,
        Event.stage AppStep.thumbnail, Event.callThumbnail,
        Event.stage AppStep.images] ++
          (imagesLoop env 0 sd.paragraphs.length sd.paragraphs).2) := by
  unfold startWorkflow
  rw [if_neg ht, hr, hs, hm, hth]
  rfl

theorem stageTrace_append (a b : List Event) :
    stageTrace (a ++ b) = stageTrace a ++ stageTrace b := by
  simp [stageTrace]

theorem stageTrace_mapImage (l : List Nat) :
    stageTrace (l.map Event.callImage) = [] := by
  induction l with
  | nil => rfl
  | cons a l ih =>
      have h : stageTrace (Event.callImage a :: l.map Event.callImage) =
          stageTrace (l.map Event.callImage) := rfl
      rw [List.map_cons, h, ih]

theorem imageCalls_append (a b : List Event) :
    imageCalls (a ++ b) = imageCalls a ++ imageCalls b := by
  simp [imageCalls]

theorem imageCalls_mapImage (l : List Nat) :
    imageCalls (l.map Event.callImage) = l := by
  induction l with
  | nil => rfl
  | cons a l ih =>
      have h : imageCalls (Event.callImage a :: l.map Event.callImage) =
          a :: imageCalls (l.map Event.callImage) := rfl
      rw [List.map_cons, h, ih]

/-- Concrete research payload used by the witnesses. -/
def research0 : ResearchData := { report := "r", sources := [] }

/-- Scene fixture: the parsed script's scenes carry only id, content and an
image prompt; the optional fields start unset. -/
def sceneInit (i : Nat) : ParagraphItem :=
  { id := (i : Int), content := "c", imagePrompt := "p" }

/-- Concrete 12-scene script payload (the service contract fixes 12). -/
def script0 : ScriptData :=
  { rawScript := "raw", ttsScript := "tts", paragraphs := (List.range 12).map sceneInit }

/-- Concrete metadata payload. -/
def meta0 : MetadataResults :=
  { youtubeDescription := "d", summary4Lines := "s", hashtags := [], seoKeywords := []
  , pinnedComment := "pc" }

/-- Concrete thumbnail payload. -/
def thumb0 : ThumbnailData := { pureImageUrl := some "u" }

/-- Fully succeeding client environment. -/
def env0 : Env :=
  { research := Except.ok research0, script := Except.ok script0
  , metadata := Except.ok meta0, thumbnail := Except.ok thumb0
  , image := fun _ _ => Except.ok "img" }

/-- Initial workflow state with a non-empty topic. -/
def state0 : AppState :=
  { currentStep := AppStep.input, topic := "topic", length := ScriptLength.medium }

/-- C9: invoking `startWorkflow` on a state whose topic is the empty string
returns the state unchanged with an empty event trace — the run never
starts, nothing is written, no error is surfaced (App.tsx line 46). -/
theorem emptyTopic_noRun (env : Env) (s : AppState) (h : s.topic = "") :
    startWorkflow env s = (s, []) := by
  unfold startWorkflow
  rw [if_pos h]

/-- Initial workflow state with the empty topic. -/
def stateEmpty : AppState :=
  { currentStep := AppStep.input, topic := "", length := ScriptLength.medium }

theorem emptyTopic_noRun_witness :
    stateEmpty.topic = "" ∧ startWorkflow env0 stateEmpty = (stateEmpty, []) :=
  ⟨rfl, emptyTopic_noRun env0 stateEmpty rfl⟩

/-- C3: a run with a non-empty topic whose four stage calls succeed produces
exactly the event sequence research call, script call, metadata call,
thumbnail call, then one image call per scene in index order — each call
strictly before the next, and in particular the metadata and thumbnail calls
before every image call. -/
theorem stageExecutionOrder (env : Env) (s : AppState) (r : ResearchData)
    (sd : ScriptData) (m : MetadataResults) (t : ThumbnailData)
    (ht : ¬ s.topic = "") (hr : env.research = Except.ok r)
    (hs : env.script = Except.ok sd) (hm : env.metadata = Except.ok m)
    (hth : env.thumbnail = Except.ok t) :
    (startWorkflow env s).2 =
      [Event.stage AppStep.research, Event.callResearch,
       Event.stage AppStep.script, Event.callScript,
       Event.stage AppStep.metadata, Event.callMetadata,
       Event.stage AppStep.thumbnail, Event.callThumbnail,
       Event.stage AppStep.images] ++
        (List.range' 0 sd.paragraphs.length).map Event.callImage := by
  rw [startWorkflow_success env s r sd m t ht hr hs hm hth, snd_imagesLoop]

theorem stageExecutionOrder_witness :
    (startWorkflow env0 state0).2 =
      [Event.stage AppStep.research, Event.callResearch,
       Event.stage AppStep.script, Event.callScript,
       Event.stage AppStep.metadata, Event.callMetadata,
       Event.stage AppStep.thumbnail, Event.callThumbnail,
       Event.stage AppStep.images] ++
        (List.range' 0 script0.paragraphs.length).map Event.callImage :=
  stageExecutionOrder env0 state0 research0 script0 meta0 thumb0
    (by decide) rfl rfl rfl rfl

/-- C4 (counterexample): under the fully succeeding client the published
stage sequence is research, script, metadata, thumbnail, images, and its
last consecutive pair regresses in the claimed navigation order
INPUT, RESEARCH, SCRIPT, IMAGES, METADATA, THUMBNAIL: the IMAGES update
comes after THUMBNAIL yet sits strictly earlier in that order. -/
theorem forwardOnlyNavOrder_counterexample :
    stageTrace (startWorkflow env0 state0).2 =
      [AppStep.research, AppStep.script, AppStep.metadata, AppStep.thumbnail,
       AppStep.images] ∧
    navPos AppStep.images < navPos AppStep.thumbnail := by
  constructor
  · rw [startWorkflow_success env0 state0 research0 script0 meta0 thumb0
        (by decide) rfl rfl rfl rfl, snd_imagesLoop, stageTrace_append,
        stageTrace_mapImage]
    rfl
  · decide

/-- C4 (amended): during any single run the published stage sequence is
strictly increasing in the order the orchestrator executes stages —
INPUT, RESEARCH, SCRIPT, METADATA, THUMBNAIL, IMAGES — hence never
regresses and never repeats a stage. -/
theorem forwardOnlyExecOrder (env : Env) (s : AppState) :
    List.Chain' (fun a b => execPos a < execPos b)
      (stageTrace (startWorkflow env s).2) := by
  by_cases ht : s.topic = ""
  · have h : startWorkflow env s = (s, []) := by
      unfold startWorkflow
      rw [if_pos ht]
    rw [h]
    simp [stageTrace]
  · cases hr : env.research with
    | error e =>
        rw [startWorkflow_researchFail env s e ht hr]
        simp [stageTrace, List.filterMap_cons, List.chain'_cons, execPos]
    | ok r =>
        cases hs : env.script with
        | error e =>
            rw [startWorkflow_scriptFail env s r e ht hr hs]
            simp [stageTrace, List.filterMap_cons, List.chain'_cons, execPos]
        | ok sd =>
            cases hm : env.metadata with
            | error e =>
                rw [startWorkflow_metadataFail env s r sd e ht hr hs hm]
                simp [stageTrace, List.filterMap_cons, List.chain'_cons, execPos]
            | ok m =>
                cases hth : env.thumbnail with
                | error e =>
                    rw [startWorkflow_thumbnailFail env s r sd m e ht hr hs hm hth]
                    simp [stageTrace, List.filterMap_cons, List.chain'_cons, execPos]
                | ok t =>
                    rw [startWorkflow_success env s r sd m t ht hr hs hm hth,
                      snd_imagesLoop, stageTrace_append, stageTrace_mapImage]
                    simp [stageTrace, List.filterMap_cons, List.chain'_cons, execPos]

/-- C6: when research succeeds and the script call fails, the run aborts
with research committed, script, metadata and thumbnail still unset, and
`isProcessing` cleared; nothing committed earlier is rolled back. -/
theorem scriptFail_partialState (env : Env) (s : AppState) (r : ResearchData)
    (e : GenError) (ht : ¬ s.topic = "") (hr : env.research = Except.ok r)
    (hs : env.script = Except.error e) (h1 : s.script = none)
    (h2 : s.metadata = none) (h3 : s.thumbnail = none) :
    (startWorkflow env s).1.research = some r ∧
    (startWorkflow env s).1.script = none ∧
    (startWorkflow env s).1.metadata = none ∧
    (startWorkflow env s).1.thumbnail = none ∧
    (startWorkflow env s).1.isProcessing = false := by
  rw [startWorkflow_scriptFail env s r e ht hr hs]
  exact ⟨rfl, h1, h2, h3, rfl⟩

/-- Client environment whose script call rejects. -/
def envScriptFail : Env := { env0 with script := Except.error GenError.rejected }

theorem scriptFail_partialState_witness :
    (startWorkflow envScriptFail state0).1.research = some research0 ∧
    (startWorkflow envScriptFail state0).1.script = none ∧
    (startWorkflow envScriptFail state0).1.metadata = none ∧
    (startWorkflow envScriptFail state0).1.thumbnail = none ∧
    (startWorkflow envScriptFail state0).1.isProcessing = false :=
  scriptFail_partialState envScriptFail state0 research0 GenError.rejected
    (by decide) rfl rfl rfl rfl rfl

/-- C1: in a run reaching the image sub-loop where the image call fails for
exactly one scene index `i` and succeeds for every other index, every scene
other than `i` ends with `imageUrl` set to its returned url, scene `i` ends
with `imageUrl` unset and `isGenerating = false`, the loop still issues one
image call per scene, the committed research, script text, metadata and
thumbnail results are untouched, and the run terminates with
`isProcessing = false`. -/
theorem perSceneFailureIsolation
    (env : Env) (s : AppState) (r : ResearchData) (sd : ScriptData)
    (m : MetadataResults) (t : ThumbnailData) (i : Nat) (p : ParagraphItem)
    (url : Nat → String) (e : GenError)
    (ht : ¬ s.topic = "")
    (hr : env.research = Except.ok r) (hs : env.script = Except.ok sd)
    (hm : env.metadata = Except.ok m) (hth : env.thumbnail = Except.ok t)
    (hp : sd.paragraphs[i]? = some p) (hpu : p.imageUrl = none)
    (hfail : env.image i p.imagePrompt = Except.error e)
    (hsucc : ∀ j, j < sd.paragraphs.length → j ≠ i →
      env.image j (promptAt sd.paragraphs j) = Except.ok (url j)) :
    (startWorkflow env s).1.isProcessing = false ∧
    (startWorkflow env s).1.research = some r ∧
    (startWorkflow env s).1.metadata = some m ∧
    (startWorkflow env s).1.thumbnail = some t ∧
    (startWorkflow env s).1.script.map ScriptData.rawScript = some sd.rawScript ∧
    (startWorkflow env s).1.script.map ScriptData.ttsScript = some sd.ttsScript ∧
    imageUrlAt (startWorkflow env s).1 i = some none ∧
    isGenAt (startWorkflow env s).1 i = some (some false) ∧
    (∀ j, j < sd.paragraphs.length → j ≠ i →
      imageUrlAt (startWorkflow env s).1 j = some (some (url j)) ∧
      isGenAt (startWorkflow env s).1 j = some (some false)) ∧
    imageCalls (startWorkflow env s).2 = List.range sd.paragraphs.length := by
  have hilen : i < sd.paragraphs.length := by
    by_contra hcon
    rw [List.getElem?_eq_none (by omega)] at hp
    exact Option.noConfusion hp
  rw [startWorkflow_success env s r sd m t ht hr hs hm hth]
  refine ⟨rfl, rfl, rfl, rfl, rfl, rfl, ?_, ?_, ?_, ?_⟩
  · dsimp only [imageUrlAt, Option.bind]
    rw [getElem?_imagesLoop_proc env sd.paragraphs.length 0 i sd.paragraphs
      (Nat.zero_le i) (by omega), hp]
    simp [processScene, hfail, hpu]
  · dsimp only [isGenAt, Option.bind]
    rw [getElem?_imagesLoop_proc env sd.paragraphs.length 0 i sd.paragraphs
      (Nat.zero_le i) (by omega), hp]
    simp [processScene, hfail]
  · intro j hj hne
    obtain ⟨q, hq⟩ : ∃ q, sd.paragraphs[j]? = some q :=
      ⟨sd.paragraphs[j], List.getElem?_eq_getElem hj⟩
    have himg : env.image j q.imagePrompt = Except.ok (url j) := by
      have h2 := hsucc j hj hne
      rw [promptAt, hq] at h2
      simpa using h2
    constructor
    · dsimp only [imageUrlAt, Option.bind]
      rw [getElem?_imagesLoop_proc env sd.paragraphs.length 0 j sd.paragraphs
        (Nat.zero_le j) (by omega), hq]
      simp [processScene, himg]
    · dsimp only [isGenAt, Option.bind]
      rw [getElem?_imagesLoop_proc env sd.paragraphs.length 0 j sd.paragraphs
        (Nat.zero_le j) (by omega), hq]
      simp [processScene, himg]
  · dsimp only
    rw [snd_imagesLoop, imageCalls_append, imageCalls_mapImage, List.range_eq_range']
    rfl

/-- Client environment succeeding everywhere except the image call for scene
index 3, the spec's mock. -/
def envImgFail3 : Env :=
  { env0 with image := fun i _ =>
      if i = 3 then Except.error GenError.rejected else Except.ok "img" }

theorem perSceneFailureIsolation_witness :
    (startWorkflow envImgFail3 state0).1.isProcessing = false ∧
    imageUrlAt (startWorkflow envImgFail3 state0).1 3 = some none ∧
    isGenAt (startWorkflow envImgFail3 state0).1 3 = some (some false) ∧
    imageUrlAt (startWorkflow envImgFail3 state0).1 4 = some (some "img") ∧
    (startWorkflow envImgFail3 state0).1.thumbnail = some thumb0 ∧
    imageCalls (startWorkflow envImgFail3 state0).2 = List.range 12 := by
  have h := perSceneFailureIsolation envImgFail3 state0 research0 script0 meta0 thumb0
    3 (sceneInit 3) (fun _ => "img") GenError.rejected
    (by decide) rfl rfl rfl rfl rfl rfl rfl
    (by
      intro j hj hne
      have hj12 : j < 12 := by
        have hlen : script0.paragraphs.length = 12 := rfl
        omega
      interval_cases j <;> first | rfl | exact absurd rfl hne)
  obtain ⟨h1, _, _, h4, _, _, h7, h8, h9, h10⟩ := h
  exact ⟨h1, h7, h8, (h9 4 (by decide) (by decide)).1, h4, h10⟩

/-- C2: for a state holding a script, retrying scene `index` overwrites that
scene's `imageUrl` exactly when the image call succeeds; a failed call
leaves the previously stored `imageUrl` (populated or not) intact, and
`isGenerating` ends false either way. -/
theorem retryIdempotentOnFailure (s : AppState) (sd : ScriptData) (index : Nat)
    (p : ParagraphItem) (hsc : s.script = some sd)
    (hp : sd.paragraphs[index]? = some p) :
    (∀ u, imageUrlAt (retryImage (Except.ok u) s index) index = some (some u)) ∧
    (∀ e, imageUrlAt (retryImage (Except.error e) s index) index = some p.imageUrl) ∧
    (∀ res, isGenAt (retryImage res s index) index = some (some false)) := by
  refine ⟨?_, ?_, ?_⟩
  · intro u
    unfold retryImage
    rw [hsc]
    dsimp only [imageUrlAt, Option.bind]
    simp [getElem?_modifyIdx_self, hp]
  · intro e
    unfold retryImage
    rw [hsc]
    dsimp only [imageUrlAt, Option.bind]
    simp [getElem?_modifyIdx_self, hp]
  · intro res
    unfold retryImage
    rw [hsc]
    cases res with
    | ok u =>
        dsimp only [isGenAt, Option.bind]
        simp [getElem?_modifyIdx_self, hp]
    | error e =>
        dsimp only [isGenAt, Option.bind]
        simp [getElem?_modifyIdx_self, hp]

/-- Scene fixture whose image was already generated. -/
def sceneOld : ParagraphItem :=
  { id := 0, content := "c", imagePrompt := "p", imageUrl := some "old" }

/-- Script fixture around `sceneOld`. -/
def scriptOld : ScriptData :=
  { rawScript := "raw", ttsScript := "tts", paragraphs := [sceneOld] }

/-- State fixture holding `scriptOld`. -/
def stateOld : AppState :=
  { currentStep := AppStep.images, topic := "topic", length := ScriptLength.medium
  , script := some scriptOld }

theorem retryIdempotentOnFailure_witness :
    imageUrlAt (retryImage (Except.ok "new") stateOld 0) 0 = some (some "new") ∧
    imageUrlAt (retryImage (Except.error GenError.rejected) stateOld 0) 0 =
      some (some "old") ∧
    isGenAt (retryImage (Except.error GenError.rejected) stateOld 0) 0 =
      some (some false) := by
  have h := retryIdempotentOnFailure stateOld scriptOld 0 sceneOld rfl rfl
  exact ⟨h.1 "new", h.2.1 GenError.rejected, h.2.2 (Except.error GenError.rejected)⟩

theorem startWorkflow_thumbnail_of_error (env : Env) (s : AppState) (e : GenError)
    (hth : env.thumbnail = Except.error e) :
    (startWorkflow env s).1.thumbnail = s.thumbnail := by
  by_cases ht : s.topic = ""
  · have h : startWorkflow env s = (s, []) := by
      unfold startWorkflow
      rw [if_pos ht]
    rw [h]
  · cases hr : env.research with
    | error e2 => rw [startWorkflow_researchFail env s e2 ht hr]
    | ok r =>
        cases hs : env.script with
        | error e2 => rw [startWorkflow_scriptFail env s r e2 ht hr hs]
        | ok sd =>
            cases hm : env.metadata with
            | error e2 => rw [startWorkflow_metadataFail env s r sd e2 ht hr hs hm]
            | ok m => rw [startWorkflow_thumbnailFail env s r sd m e ht hr hs hm hth]

/-- C5: when the thumbnail's first (copy-suggestion) call fails, no
image-generation call is attempted, the whole thumbnail operation fails with
that same error, and a run whose thumbnail stage carries this outcome leaves
the workflow state's `thumbnail` field unset. -/
theorem thumbnailDependencyOrder (tenv : ThumbEnv) (oenv : Env) (s : AppState)
    (e : GenError) (h1 : tenv.textCall = Except.error e)
    (h2 : oenv.thumbnail = (generateThumbnailContent tenv).1)
    (h3 : s.thumbnail = none) :
    (generateThumbnailContent tenv).2 = false ∧
    (generateThumbnailContent tenv).1 = Except.error e ∧
    (startWorkflow oenv s).1.thumbnail = none := by
  have hg : generateThumbnailContent tenv = (Except.error e, false) := by
    unfold generateThumbnailContent
    rw [h1]
  refine ⟨by rw [hg], by rw [hg], ?_⟩
  rw [startWorkflow_thumbnail_of_error oenv s e (by rw [h2, hg]), h3]

/-- Thumbnail oracle whose first call rejects. -/
def tenvFail : ThumbEnv :=
  { textCall := Except.error GenError.rejected, imageCall := Except.ok [] }

/-- Client environment whose thumbnail stage carries `tenvFail`'s outcome. -/
def envThumbLinked : Env := { env0 with thumbnail := (generateThumbnailContent tenvFail).1 }

theorem thumbnailDependencyOrder_witness :
    (generateThumbnailContent tenvFail).2 = false ∧
    (generateThumbnailContent tenvFail).1 = Except.error GenError.rejected ∧
    (startWorkflow envThumbLinked state0).1.thumbnail = none :=
  thumbnailDependencyOrder tenvFail envThumbLinked state0 GenError.rejected rfl rfl rfl

/-- C7 (counterexample): a resolved script response with missing text yields
the fabricated empty object, and a resolved response whose text is valid
JSON of the wrong shape (an array) is returned as-is without failing — both
contradicting "fails exactly when the response is not valid JSON matching
the expected shape / an empty response does not yield a fabricated empty
result". -/
theorem scriptParse_counterexample :
    generateScript (Except.ok none) = Except.ok (Json.obj []) ∧
    generateScript (Except.ok (some "[]")) = Except.ok (Json.arr []) :=
  ⟨rfl, rfl⟩

/-- C7 (amended): the script operation fails exactly when the call rejects
or the response text is non-empty and not syntactically valid JSON; no shape
validation is performed, and an empty or missing response text yields the
parse of the fabricated document, the empty JSON object. -/
theorem scriptParse_amended (r : Except GenError (Option String)) :
    ((∃ e, generateScript r = Except.error e) ↔
      (∃ e, r = Except.error e) ∨
      (∃ txt, r = Except.ok (some txt) ∧ ¬ txt = "" ∧ parseJson txt = none)) ∧
    generateScript (Except.ok none) = Except.ok (Json.obj []) ∧
    generateScript (Except.ok (some "")) = Except.ok (Json.obj []) := by
  refine ⟨?_, rfl, rfl⟩
  cases r with
  | error e =>
      constructor
      · intro _
        exact Or.inl ⟨e, rfl⟩
      · intro _
        exact ⟨e, rfl⟩
  | ok t =>
      cases t with
      | none =>
          constructor
          · rintro ⟨e2, he⟩
            rw [show generateScript (Except.ok none) = Except.ok (Json.obj []) from rfl] at he
            exact Except.noConfusion he
          · rintro (⟨e2, he⟩ | ⟨txt, he, hne, hpj⟩)
            · exact Except.noConfusion he
            · simp at he
      | some txt =>
          by_cases htxt : txt = ""
          · subst htxt
            constructor
            · rintro ⟨e2, he⟩
              rw [show generateScript (Except.ok (some "")) =
                Except.ok (Json.obj []) from rfl] at he
              exact Except.noConfusion he
            · rintro (⟨e2, he⟩ | ⟨txt2, he, hne, hpj⟩)
              · exact Except.noConfusion he
              · exact absurd (show txt2 = "" by simpa using he.symm) hne
          · have hform : generateScript (Except.ok (some txt)) =
                match parseJson txt with
                | some j => Except.ok j
                | none => Except.error GenError.parseErr := by
              have h1 : generateScript (Except.ok (some txt)) =
                  match parseJson (strOr (some txt) "\x7b\x7d") with
                  | some j => Except.ok j
                  | none => Except.error GenError.parseErr := rfl
              rw [h1, show strOr (some txt) "\x7b\x7d" = txt from by simp [strOr, htxt]]
            cases hpj : parseJson txt with
            | none =>
                rw [hform, hpj]
                constructor
                · intro _
                  exact Or.inr ⟨txt, rfl, htxt, hpj⟩
                · intro _
                  exact ⟨GenError.parseErr, rfl⟩
            | some j =>
                rw [hform, hpj]
                constructor
                · rintro ⟨e2, he⟩
                  exact Except.noConfusion he
                · rintro (⟨e2, he⟩ | ⟨txt2, he, hne, hpj2⟩)
                  · exact Except.noConfusion he
                  · have htt : txt2 = txt := by simpa using he.symm
                    subst htt
                    rw [hpj] at hpj2
                    exact Option.noConfusion hpj2

/-- Boolean success test for an external-call outcome. -/
def isOkE {α : Type} : Except GenError α → Bool
  | Except.ok _ => true
  | Except.error _ => false

/-- C8 (counterexample): a resolved research response with no text does not
fail — it returns normally with an empty report and no sources,
contradicting "fails with GenerationError exactly when the underlying call
rejects or returns no text". -/
theorem researchFailure_counterexample :
    performResearch (Except.ok { text := none, groundingChunks := none }) =
      Except.ok { report := "", sources := [] } := rfl

/-- C8 (amended): the research operation fails exactly when the underlying
call rejects; a resolved response with no text yields an empty report
normally; and in the parsed sources a missing title defaults to the
placeholder "출처" and a missing uri to the sentinel "#". -/
theorem researchFailure_amended :
    (∀ r : Except GenError ResearchResponse, isOkE (performResearch r) = isOkE r) ∧
    (∀ resp : ResearchResponse, resp.text = none →
      (performResearch (Except.ok resp)).map ResearchData.report = Except.ok "") ∧
    (∀ c : GroundingChunk, c.web.bind WebInfo.title = none →
      (mkSource c).title = "출처") ∧
    (∀ c : GroundingChunk, c.web.bind WebInfo.uri = none →
      (mkSource c).uri = "#") := by
  refine ⟨?_, ?_, ?_, ?_⟩
  · intro r
    cases r <;> rfl
  · intro resp h
    simp [performResearch, h, strOr, Except.map]
  · intro c h
    simp [mkSource, h, strOr]
  · intro c h
    simp [mkSource, h, strOr]

theorem researchFailure_amended_witness :
    isOkE (performResearch (Except.ok { text := none, groundingChunks := none })) =
      isOkE (Except.ok ({ text := none, groundingChunks := none } : ResearchResponse)) ∧
    (performResearch (Except.ok { text := none, groundingChunks := none })).map
      ResearchData.report = Except.ok "" ∧
    (mkSource { web := none }).title = "출처" ∧
    (mkSource { web := none }).uri = "#" :=
  ⟨researchFailure_amended.1 _, researchFailure_amended.2.1 _ rfl,
   researchFailure_amended.2.2.1 _ rfl, researchFailure_amended.2.2.2 _ rfl⟩

/-- C10: every successful thumbnail generation returns a value whose
`mockupImageUrl` is absent and whose `pureImageUrl` is set — the
`mockupImageUrl` field of ThumbnailData is never written by any operation. -/
theorem mockupNeverSet (tenv : ThumbEnv) (d : ThumbnailData)
    (h : (generateThumbnailContent tenv).1 = Except.ok d) :
    d.mockupImageUrl = none ∧ d.pureImageUrl.isSome = true := by
  unfold generateThumbnailContent at h
  split at h
  · simp at h
  · split at h
    · simp at h
    · split at h
      · simp at h
      · simp at h
        subst h
        exact ⟨rfl, rfl⟩

/-- Thumbnail oracle with both calls succeeding. -/
def tenvOk : ThumbEnv :=
  { textCall := Except.ok none, imageCall := Except.ok [{ inlineData := some "x" }] }

theorem mockupNeverSet_witness :
    ({ pureImageUrl := some "data:image/png;base64,x", mockupImageUrl := none,
       copySuggestions := none } : ThumbnailData).mockupImageUrl = none ∧
    ({ pureImageUrl := some "data:image/png;base64,x", mockupImageUrl := none,
       copySuggestions := none } : ThumbnailData).pureImageUrl.isSome = true :=
  mockupNeverSet tenvOk _ rfl
